import Mathlib

/-!
Verification development for the plain_vit repository (src/main.py and
src/simple_vit.py).  Python floats are modelled as rationals where the code
only adds, multiplies and divides, and as real numbers where transcendental
functions (exp, log, sin, cos, tanh, real powers) appear.  Python errors
(ZeroDivisionError, failing torch asserts) are modelled with Option or an
explicit result type.
-/

namespace PlainViT

/-! ### Rounding (Python built-in round, used at main.py line 437)

Python rounds to the nearest integer with ties going to the even integer. -/

/-- Round half to even, the semantics of the Python built-in round function
on exactly representable values. -/
def pyRound (q : ℚ) : ℤ :=
  let f := ⌊q⌋
  let r := q - (f : ℚ)
  if r < 1 / 2 then f
  else if 1 / 2 < r then f + 1
  else if f % 2 = 0 then f else f + 1

/-! ### Step derivation (main.py lines 436-439)

n = len(train_dataset); total_steps = round(n * args.epochs / args.total_batch_size);
args.specified_steps = a set comprehension over args.log_epoch, then
args.specified_steps.add(total_steps). -/

/-- main.py line 437: total_steps = round(n * epochs / total_batch_size). -/
def total_steps (n epochs total_batch_size : ℕ) : ℤ :=
  pyRound ((n * epochs : ℚ) / (total_batch_size : ℚ))

/-- main.py lines 438-439: the set of forced-evaluation step indices, built
from the requested log epochs and then always extended with total_steps. -/
def specified_steps (n epochs total_batch_size : ℕ) (log_epoch : List ℕ) : Finset ℤ :=
  insert (total_steps n epochs total_batch_size)
    ((log_epoch.map (fun epoch => pyRound ((n * epoch : ℚ) / (total_batch_size : ℚ)))).toFinset)

/-! ### Effective register count (simple_vit.py line 198)

self.register = register + (pool_type == "tok"); Python booleans are 0 or 1
under integer addition. -/

/-- simple_vit.py line 198: the effective internal register count. -/
def effective_register (register : ℕ) (pool_type : String) : ℕ :=
  register + (if pool_type = "tok" then 1 else 0)

/-! ### Assertion-style preconditions (simple_vit.py lines 187, 143, 256-257)

Construction runs torch._assert(image_size % patch_size == 0, ...) at line 187
and, whenever posemb == "sincos2d", posemb_sincos_2d runs
assert (dim % 4) == 0 at line 143 (with dim = hidden_dim).  _process_input
asserts h == image_size then w == image_size at lines 256-257. -/

/-- Outcome of a sequence of torch asserts: either all pass or the first
failing one aborts with its message. -/
inductive AssertResult where
  | ok : AssertResult
  | failed (msg : String) : AssertResult
deriving DecidableEq

/-- The assertion-style checks run by SimpleVisionTransformer.__init__
(line 187, and line 143 via the posemb_sincos_2d call at line 212 when the
positional-embedding kind is sincos2d). -/
def init_asserts (image_size patch_size hidden_dim : ℕ) (posemb : String) : AssertResult :=
  if image_size % patch_size ≠ 0 then AssertResult.failed "Input shape indivisible by patch size!"
  else if posemb = "sincos2d" ∧ hidden_dim % 4 ≠ 0 then
    AssertResult.failed "feature dimension must be multiple of 4 for sincos emb"
  else AssertResult.ok

/-- The assertion-style checks run by SimpleVisionTransformer._process_input
(lines 256-257) on an input batch of height h and width w. -/
def process_input_asserts (image_size h w : ℕ) : AssertResult :=
  if h ≠ image_size then AssertResult.failed "Wrong image height!"
  else if w ≠ image_size then AssertResult.failed "Wrong image width!"
  else AssertResult.ok

/-! ### AverageMeter (main.py lines 737-787) -/

/-- main.py lines 737-741: the Summary enum. -/
inductive Summary where
  | NONE : Summary
  | AVERAGE : Summary
  | SUM : Summary
  | COUNT : Summary
deriving DecidableEq

/-- main.py lines 743-762: the fields of AverageMeter (the device field is
irrelevant here and omitted; val, avg, sum and count are Python numbers,
modelled as rationals). -/
structure AverageMeter where
  name : String
  fmt : String
  summary_type : Summary
  val : ℚ
  avg : ℚ
  sum : ℚ
  count : ℚ
deriving DecidableEq

/-- main.py lines 752-756: reset() zeroes val, avg, sum and count. -/
def AverageMeter.reset (m : AverageMeter) : AverageMeter :=
  { m with val := 0, avg := 0, sum := 0, count := 0 }

/-- main.py lines 745-750: __init__ stores name, fmt and summary_type and
calls reset(). -/
def AverageMeter.init (name fmt : String) (summary_type : Summary) : AverageMeter :=
  AverageMeter.reset
    { name := name, fmt := fmt, summary_type := summary_type,
      val := 0, avg := 0, sum := 0, count := 0 }

/-- main.py lines 758-762: update(val, n) sets val, accumulates sum and
count, then recomputes avg = sum / count.  The division raises
ZeroDivisionError when the accumulated count is zero, modelled as none. -/
def AverageMeter.update (m : AverageMeter) (val n : ℚ) : Option AverageMeter :=
  let sum := m.sum + val * n
  let count := m.count + n
  if count = 0 then none
  else some { m with val := val, sum := sum, count := count, avg := sum / count }

/-- A finite sequence of update calls, aborting at the first
ZeroDivisionError. -/
def AverageMeter.runUpdates (m : AverageMeter) : List (ℚ × ℚ) → Option AverageMeter
  | [] => some m
  | p :: rest =>
    match m.update p.1 p.2 with
    | none => none
    | some m1 => m1.runUpdates rest

/-- Render a rational with exactly three digits after the decimal point, the
effect of the Python format specifier .3f (ties rounded to even). -/
def formatFixed3 (q : ℚ) : String :=
  let m := pyRound (q * 1000)
  let sign := if m < 0 then "-" else ""
  let n := m.natAbs
  let frac := toString (n % 1000)
  sign ++ toString (n / 1000) ++ "." ++
    String.mk (List.replicate (3 - frac.length) '0') ++ frac

/-- main.py lines 774-787: summary() picks a format by summary_type and
renders it from the fields; the NONE kind yields the empty string.  The
invalid-summary-type branch is unreachable because the match on the closed
enum is total. -/
def AverageMeter.summary (m : AverageMeter) : String :=
  match m.summary_type with
  | Summary.NONE => ""
  | Summary.AVERAGE => m.name ++ " " ++ formatFixed3 m.avg
  | Summary.SUM => m.name ++ " " ++ formatFixed3 m.sum
  | Summary.COUNT => m.name ++ " " ++ formatFixed3 m.count

/-! ### ProgressMeter (main.py lines 790-809) -/

/-- Python str.join semantics: the separator between consecutive elements. -/
def pyJoin (sep : String) : List String → String
  | [] => ""
  | x :: rest => x ++ String.join (rest.map (fun s => sep ++ s))

/-- The rendering of the Python format specifier of shape colon-N-d on a
natural number: decimal digits right-aligned in a field of the given width,
padded on the left with spaces. -/
def padIntWidth (width : ℕ) (n : ℕ) : String :=
  String.mk (List.replicate (width - (toString n).length) ' ') ++ toString n

/-- main.py lines 806-809: _get_batch_fmtstr builds the format string
with field width len(str(num_batches // 1)) and pre-renders num_batches into
its right half; modelled as the function the format string denotes. -/
def getBatchFmtstr (num_batches : ℕ) : ℕ → String :=
  fun batch =>
    let num_digits := (toString (num_batches / 1)).length
    "[" ++ padIntWidth num_digits batch ++ "/" ++ padIntWidth num_digits num_batches ++ "]"

/-- main.py lines 790-794: ProgressMeter holds the batch format (derived from
the total batch count), the meters (represented here by their textual
renderings, which is all display reads from them via str) and a prefix
string, named pfx here. -/
structure ProgressMeter where
  num_batches : ℕ
  meters : List String
  pfx : String

/-- main.py lines 796-799: display(batch) prints the prefix plus the
formatted counter, then each meter rendering, tab-separated. -/
def ProgressMeter.display (pm : ProgressMeter) (batch : ℕ) : String :=
  pyJoin "\t" ((pm.pfx ++ getBatchFmtstr pm.num_batches batch) :: pm.meters)

/-! ### Best-accuracy state across main_worker and train (main.py lines
189, 273-274, 474-475, 530-542, 639-640)

The module global best_acc1 is initialised to 0 at line 189.  main_worker
declares global best_acc1 (line 274) and, when resuming, overwrites it with
the value from the checkpoint (line 475).  train() assigns best_acc1 = 0 at
line 542 WITHOUT a global declaration, which in Python makes best_acc1 a
function-local variable throughout the body of train; the loop at lines
639-640 therefore reads and updates that local, never the restored global. -/

/-- The module-level best_acc1 after the resume block of main_worker: the
checkpoint value when resuming (line 475), else the module default 0
(line 189). -/
def main_worker_best_acc1 (resume_best : Option ℚ) : ℚ :=
  match resume_best with
  | some b => b
  | none => 0

/-- main.py line 542: the value of the local best_acc1 variable with which
the training loop of train() starts, regardless of any resume. -/
def train_local_best_init : ℚ := 0

/-- main.py lines 639-640: one evaluation boundary inside train():
is_best = acc1 > best_acc1 and best_acc1 = max(acc1, best_acc1), on the
local variable. -/
def train_eval_step (best acc1 : ℚ) : Bool × ℚ :=
  (decide (best < acc1), max acc1 best)

/-- The is_best flags produced by successive evaluation boundaries of one
train() call, folding train_eval_step from the local initial value 0. -/
def train_is_best_flags (accs : List ℚ) : List Bool :=
  (accs.foldl
    (fun (st : ℚ × List Bool) a =>
      let r := train_eval_step st.1 a
      (r.2, st.2 ++ [r.1]))
    (train_local_best_init, [])).2

/-! ### 2-D sine/cosine positional embedding (simple_vit.py lines 141-150)

torch.meshgrid(arange(h), arange(w), indexing="ij") gives the y grid whose
entry at (i, j) is i and the x grid whose entry at (i, j) is j; flatten()
concatenates the rows (row-major).  omega = arange(dim // 4) / (dim // 4 - 1)
then omega = 1 / temperature ** omega; pe = cat(x.sin(), x.cos(), y.sin(),
y.cos()) along the feature dimension.  The final cast pe.type(dtype) does not
change the mathematical value and is dropped. -/

/-- The y output of torch.meshgrid(arange(h), arange(w), indexing="ij"). -/
def meshgrid_y (h w : ℕ) : List (List ℕ) :=
  (List.range h).map (fun i => (List.range w).map (fun _ => i))

/-- The x output of torch.meshgrid(arange(h), arange(w), indexing="ij"). -/
def meshgrid_x (h w : ℕ) : List (List ℕ) :=
  (List.range h).map (fun _ => List.range w)

/-- simple_vit.py lines 144-145: the omega frequency vector. -/
noncomputable def omega (dim temperature : ℕ) : List ℝ :=
  (List.range (dim / 4)).map
    (fun (k : ℕ) => 1 / (temperature : ℝ) ^ ((k : ℝ) / (((dim / 4 : ℕ) : ℝ) - 1)))

/-- simple_vit.py lines 141-150: the positional-embedding matrix, one row per
flattened grid cell. -/
noncomputable def posemb_sincos_2d (h w dim : ℕ) (temperature : ℕ := 10000) :
    List (List ℝ) :=
  let yf := (meshgrid_y h w).flatten
  let xf := (meshgrid_x h w).flatten
  let om := omega dim temperature
  List.zipWith
    (fun (yv xv : ℕ) =>
      (om.map fun o => Real.sin ((xv : ℝ) * o)) ++
      (om.map fun o => Real.cos ((xv : ℝ) * o)) ++
      (om.map fun o => Real.sin ((yv : ℝ) * o)) ++
      (om.map fun o => Real.cos ((yv : ℝ) * o)))
    yf xf

/-- The frequency vector exactly as the spec words it: omega_k equals
1 / 10000 ^ (k / (dim/4 - 1)) for k = 0 .. dim/4 - 1. -/
noncomputable def posembSpecOmega (dim k : ℕ) : ℝ :=
  1 / (10000 : ℝ) ^ ((k : ℝ) / (((dim / 4 : ℕ) : ℝ) - 1))

/-- The embedding row exactly as the spec words it for the grid cell at row
y, column x: the concatenation, in order, of sin(x omega), cos(x omega),
sin(y omega), cos(y omega), each of length dim/4. -/
noncomputable def posembSpecRow (dim y x : ℕ) : List ℝ :=
  ((List.range (dim / 4)).map fun k => Real.sin ((x : ℝ) * posembSpecOmega dim k)) ++
  ((List.range (dim / 4)).map fun k => Real.cos ((x : ℝ) * posembSpecOmega dim k)) ++
  ((List.range (dim / 4)).map fun k => Real.sin ((y : ℝ) * posembSpecOmega dim k)) ++
  ((List.range (dim / 4)).map fun k => Real.cos ((y : ℝ) * posembSpecOmega dim k))

/-! ### Classification head and forward (simple_vit.py lines 231-298)

The patchify stem, positional embedding, register tokens, encoder stack and
pooling (lines 253-291) form a deterministic map from the input batch to one
feature vector per batch element; the claims quantify over every upstream
feature, so that map is carried as an arbitrary function (the trunk field)
while the head (lines 231-251) and the loss path (lines 274-298) are
embedded concretely. -/

/-- An nn.Linear layer: one weight row and one bias entry per output
feature. -/
structure Linear where
  weight : List (List ℝ)
  bias : List ℝ

/-- Applying nn.Linear: each output feature is the dot product of its weight
row with the input plus its bias entry. -/
noncomputable def Linear.apply (l : Linear) (x : List ℝ) : List ℝ :=
  List.zipWith (fun row b => (List.zipWith (fun a c => a * c) row x).sum + b)
    l.weight l.bias

/-- simple_vit.py lines 231-239: the classification head is either a single
linear layer or pre_logits followed by Tanh followed by the final linear
layer. -/
inductive Heads where
  | single (head : Linear) : Heads
  | mlp (pre_logits : Linear) (head : Linear) : Heads

/-- Applying the head stack (nn.Sequential at line 239). -/
noncomputable def Heads.apply : Heads → List ℝ → List ℝ
  | Heads.single head, f => head.apply f
  | Heads.mlp pre head, f => head.apply ((pre.apply f).map Real.tanh)

/-- An nn.Linear whose weight and bias were set by nn.init.zeros_, as
simple_vit.py lines 249-251 do to the final head unconditionally. -/
def zeroLinear (in_features out_features : ℕ) : Linear :=
  { weight := List.replicate out_features (List.replicate in_features (0 : ℝ)),
    bias := List.replicate out_features (0 : ℝ) }

/-- The head stack as __init__ leaves it (lines 231-251): the final linear
layer is zero-initialised; the optional pre_logits layer keeps whatever
random truncated-normal weights jax_lecun_normal drew, carried here as an
arbitrary Linear value. -/
def make_heads (hidden_dim num_classes : ℕ) (representation_size : Option ℕ)
    (pre_logits : Linear) : Heads :=
  match representation_size with
  | none => Heads.single (zeroLinear hidden_dim num_classes)
  | some rep => Heads.mlp pre_logits (zeroLinear rep num_classes)

/-- F.log_softmax(out, dim=1): row-wise, each entry minus the log of the sum
of exponentials of its row. -/
noncomputable def log_softmax (out : List (List ℝ)) : List (List ℝ) :=
  out.map (fun row => row.map (fun v => v - Real.log ((row.map Real.exp).sum)))

/-- F.nll_loss(logprob, target) with the default mean reduction: minus the
batch mean of the log-probability each row assigns to its target index. -/
noncomputable def nll_loss (logprob : List (List ℝ)) (target : List ℕ) : ℝ :=
  -((List.zipWith (fun row t => row.getD t 0) logprob target).sum /
    (logprob.length : ℝ))

/-- simple_vit.py lines 274-276: _loss_fn. -/
noncomputable def loss_fn (out : List (List ℝ)) (lam : ℝ)
    (target1 target2 : List ℕ) : ℝ :=
  let logprob := log_softmax out
  lam * nll_loss logprob target1 + (1 - lam) * nll_loss logprob target2

/-- Ordinary single-target cross-entropy, the quantity the spec says the
loss degenerates to: NLL of the log-softmax against one target. -/
noncomputable def cross_entropy (out : List (List ℝ)) (target : List ℕ) : ℝ :=
  nll_loss (log_softmax out) target

/-- The model as far as the claims need it: the trunk maps an input batch to
the pooled per-element feature vectors (lines 280-291), the head produces
the logits (line 292). -/
structure Model (I : Type) where
  trunk : I → List (List ℝ)
  heads : Heads

/-- simple_vit.py lines 278-298: forward.  Returns the logits together with
some loss when both targets are given (lines 295-297) and the logits with no
loss otherwise (line 298). -/
noncomputable def Model.forward {I : Type} (M : Model I) (x : I) (lam : ℝ)
    (target1 target2 : Option (List ℕ)) : List (List ℝ) × Option ℝ :=
  let logits := (M.trunk x).map M.heads.apply
  match target1, target2 with
  | some t1, some t2 => (logits, some (loss_fn logits lam t1 t2))
  | _, _ => (logits, none)

/-! ## Theorems -/

/-- Claim C4: with pool_type "tok" the effective internal register count is
the explicit count plus one (the class token counted as the first register),
with pool_type "gap" it is exactly the explicit count, and in particular
zero registers with "tok" give effective count one. -/
theorem effective_register_spec (r : ℕ) :
    effective_register r "tok" = r + 1 ∧
    effective_register r "gap" = r ∧
    effective_register 0 "tok" = 1 := by
  refine ⟨?_, ?_, ?_⟩ <;> simp [effective_register]

/-- Claim C5: the driver derives total_steps as the rounding of
n * epochs / batch, with round(1000 * 2 / 256) = round(7.8125) = 8, and the
derived set of specified evaluation steps contains total_steps itself for
every choice of log epochs. -/
theorem total_steps_spec (n epochs total_batch_size : ℕ) (log_epoch : List ℕ) :
    total_steps 1000 2 256 = 8 ∧
    total_steps n epochs total_batch_size ∈
      specified_steps n epochs total_batch_size log_epoch := by
  constructor
  · norm_num [total_steps, pyRound]
  · exact Finset.mem_insert_self _ _

/-- Claim C6 (code evaluation at the failing input): main_worker restores
the module-level best accuracy from the checkpoint (value 90 here), but the
training loop folds from its own local variable initialised to 0, so the
first validation accuracy 50 is flagged as a new best even though it is
below the restored 90. -/
theorem best_acc1_resume_not_read_by_train :
    main_worker_best_acc1 (some 90) = 90 ∧
    train_local_best_init = 0 ∧
    train_is_best_flags [50] = [true] ∧
    (train_eval_step (main_worker_best_acc1 (some 90)) 50).1 = false := by
  refine ⟨rfl, rfl, ?_, ?_⟩ <;>
    norm_num [train_is_best_flags, train_eval_step, train_local_best_init,
      main_worker_best_acc1]

/-- Claim C9 counterexample: a construction whose image size is an exact
multiple of the patch size still fails an assertion, because the embedding
dimension 6 is not a multiple of 4 and the positional-embedding kind is
sincos2d; so the two preconditions listed by the claim are not the only
ones whose violation fires an assertion. -/
theorem init_asserts_counterexample :
    224 % 16 = 0 ∧
    init_asserts 224 16 6 "sincos2d" =
      AssertResult.failed "feature dimension must be multiple of 4 for sincos emb" ∧
    init_asserts 224 16 6 "sincos2d" ≠ AssertResult.ok := by
  refine ⟨rfl, ?_, ?_⟩ <;> decide

/-- Claim C9 as amended: construction passes its assertions exactly when
image_size is a multiple of patch_size and, if the positional-embedding kind
is sincos2d, the embedding dimension is a multiple of 4; an input batch
passes the forward-time assertions exactly when its height and width both
equal the configured image_size. -/
theorem vit_asserts_characterisation (image_size patch_size hidden_dim h w : ℕ)
    (posemb : String) :
    (init_asserts image_size patch_size hidden_dim posemb = AssertResult.ok ↔
      image_size % patch_size = 0 ∧ (posemb = "sincos2d" → hidden_dim % 4 = 0)) ∧
    (process_input_asserts image_size h w = AssertResult.ok ↔
      h = image_size ∧ w = image_size) := by
  constructor
  · unfold init_asserts
    split_ifs with h1 h2
    · simp [h1]
    · simp [h2.1, h2.2]
    · push_neg at h1 h2
      exact iff_of_true rfl ⟨h1, h2⟩
  · unfold process_input_asserts
    split_ifs with h1 h2
    · simp [h1]
    · simp [h2]
    · push_neg at h1 h2
      exact iff_of_true rfl ⟨h1, h2⟩

/-- Claim C9 witness: the characterisation applied at the default
configuration (224, 16, 384, sincos2d) and a matching input batch. -/
theorem vit_asserts_characterisation_witness :
    (init_asserts 224 16 384 "sincos2d" = AssertResult.ok ↔
      224 % 16 = 0 ∧ ("sincos2d" = "sincos2d" → 384 % 4 = 0)) ∧
    (process_input_asserts 224 224 224 = AssertResult.ok ↔
      224 = 224 ∧ 224 = 224) :=
  vit_asserts_characterisation 224 16 384 224 224 "sincos2d"

/-- Claim C10: update recomputes the average by dividing by the accumulated
count unconditionally, so it raises a division-by-zero error exactly when
the accumulated weight after the call is zero, and otherwise succeeds with
the expected fields. -/
theorem averageMeter_update_divzero (m : AverageMeter) (v n : ℚ) :
    (m.count + n = 0 → m.update v n = none) ∧
    (m.count + n ≠ 0 →
      m.update v n = some
        { m with
            val := v,
            sum := m.sum + v * n,
            count := m.count + n,
            avg := (m.sum + v * n) / (m.count + n) }) := by
  constructor <;> intro hc <;> simp [AverageMeter.update, hc]

/-- Claim C10 witness: the first update after construction with weight 0
fails with the division-by-zero error. -/
theorem averageMeter_update_divzero_witness :
    (AverageMeter.init "Data" ":6.3f" Summary.NONE).count + 0 = 0 ∧
    (AverageMeter.init "Data" ":6.3f" Summary.NONE).update 5 0 = none :=
  ⟨by norm_num [AverageMeter.init, AverageMeter.reset],
    (averageMeter_update_divzero (AverageMeter.init "Data" ":6.3f" Summary.NONE) 5 0).1
      (by norm_num [AverageMeter.init, AverageMeter.reset])⟩

/-- Helper: a successful run of updates adds each weighted value to sum and
each weight to count, and a nonempty run leaves avg equal to the final
sum divided by the final count. -/
theorem runUpdates_fields (us : List (ℚ × ℚ)) :
    ∀ m m' : AverageMeter, AverageMeter.runUpdates m us = some m' →
      m'.sum = m.sum + (us.map (fun p => p.1 * p.2)).sum ∧
      m'.count = m.count + (us.map Prod.snd).sum ∧
      (us ≠ [] → m'.avg = m'.sum / m'.count) := by
  induction us with
  | nil =>
    intro m m' hrun
    simp only [AverageMeter.runUpdates, Option.some.injEq] at hrun
    subst hrun
    simp
  | cons p rest ih =>
    intro m m' hrun
    rw [AverageMeter.runUpdates] at hrun
    cases hupd : m.update p.1 p.2 with
    | none =>
      rw [hupd] at hrun
      exact Option.noConfusion hrun
    | some m1 =>
      rw [hupd] at hrun
      have hrun1 : AverageMeter.runUpdates m1 rest = some m' := hrun
      rw [AverageMeter.update] at hupd
      by_cases hc : m.count + p.2 = 0
      · simp [hc] at hupd
      · simp only [hc, if_neg, if_false] at hupd
        injection hupd with hm1
        subst hm1
        rcases ih _ _ hrun1 with ⟨hs, hcn, hav⟩
        simp only at hs hcn
        refine ⟨?_, ?_, ?_⟩
        · rw [hs]; simp [add_assoc]
        · rw [hcn]; simp [add_assoc]
        · intro _
          cases rest with
          | nil =>
            simp only [AverageMeter.runUpdates, Option.some.injEq] at hrun1
            subst hrun1
            simp
          | cons q qs => exact hav (by simp)

/-- Claim C7 counterexample: a sequence of updates with positive total
weight can still fail: the first update carries weight 0, so its average
recomputation divides by an accumulated count of zero and the run aborts
with a ZeroDivisionError instead of producing an average. -/
theorem averageMeter_counterexample :
    (([((5 : ℚ), (0 : ℚ)), (3, 1)]).map Prod.snd).sum > 0 ∧
    AverageMeter.runUpdates (AverageMeter.init "Loss" ":.4e" Summary.AVERAGE).reset
      [(5, 0), (3, 1)] = none := by
  constructor
  · norm_num
  · norm_num [AverageMeter.runUpdates, AverageMeter.update, AverageMeter.init,
      AverageMeter.reset]

/-- Claim C7 as amended: whenever the sequence of updates after a reset
completes without a division-by-zero error (equivalently, the accumulated
weight is nonzero after every update), the average of the meter equals
sum(value_i * weight_i) / sum(weight_i); reset zeroes current value, sum,
count and average; and summary on a meter with the NONE kind returns the
empty string. -/
theorem averageMeter_spec (m m' : AverageMeter) (us : List (ℚ × ℚ))
    (hrun : AverageMeter.runUpdates m.reset us = some m') :
    m'.avg = (us.map (fun p => p.1 * p.2)).sum / (us.map Prod.snd).sum ∧
    m.reset.val = 0 ∧ m.reset.avg = 0 ∧ m.reset.sum = 0 ∧ m.reset.count = 0 ∧
    (∀ mm : AverageMeter, mm.summary_type = Summary.NONE → mm.summary = "") := by
  have hf := runUpdates_fields us m.reset m' hrun
  refine ⟨?_, rfl, rfl, rfl, rfl, ?_⟩
  · cases us with
    | nil =>
      simp only [AverageMeter.runUpdates, Option.some.injEq] at hrun
      subst hrun
      simp [AverageMeter.reset]
    | cons p rest =>
      rw [hf.2.2 (by simp), hf.1, hf.2.1]
      simp [AverageMeter.reset]
  · intro mm hmm
    simp [AverageMeter.summary, hmm]

/-- Claim C7 witness: two unit-weight updates with values 3 and 5 succeed
and leave the average at 4 = (3 * 1 + 5 * 1) / (1 + 1). -/
theorem averageMeter_spec_witness :
    AverageMeter.runUpdates (AverageMeter.init "Loss" ":.4e" Summary.AVERAGE).reset
        [(3, 1), (5, 1)] =
      some
        { name := "Loss", fmt := ":.4e", summary_type := Summary.AVERAGE,
          val := 5, avg := 4, sum := 8, count := 2 } ∧
    ({ name := "Loss", fmt := ":.4e", summary_type := Summary.AVERAGE,
       val := 5, avg := 4, sum := 8, count := 2 } : AverageMeter).avg =
      (([((3 : ℚ), (1 : ℚ)), (5, 1)]).map (fun p => p.1 * p.2)).sum /
        (([((3 : ℚ), (1 : ℚ)), (5, 1)]).map Prod.snd).sum := by
  have h : AverageMeter.runUpdates (AverageMeter.init "Loss" ":.4e" Summary.AVERAGE).reset
      [(3, 1), (5, 1)] =
      some
        { name := "Loss", fmt := ":.4e", summary_type := Summary.AVERAGE,
          val := 5, avg := 4, sum := 8, count := 2 } := by
    norm_num [AverageMeter.runUpdates, AverageMeter.update, AverageMeter.init,
      AverageMeter.reset]
  exact ⟨h, (averageMeter_spec _ _ _ h).1⟩

/-- Claim C8 counterexample: with total 100 the step counter for step 5 is
rendered space-padded as two blanks then 5, not zero-padded as 005. -/
theorem progress_display_counterexample :
    ProgressMeter.display
        { num_batches := 100, meters := ["Loss 1.0 (1.0)"], pfx := "Test: " } 5 =
      "Test: [  5/100]\tLoss 1.0 (1.0)" ∧
    ProgressMeter.display
        { num_batches := 100, meters := ["Loss 1.0 (1.0)"], pfx := "Test: " } 5 ≠
      "Test: [005/100]\tLoss 1.0 (1.0)" := by
  constructor <;> decide

/-- Helper: prepending the empty character list to a string is the
identity. -/
theorem mk_nil_append (s : String) : String.mk [] ++ s = s := by
  cases s
  rfl

/-- Claim C8 as amended: display prints the prefix, then the step counter in
brackets with the step number right-aligned and SPACE-padded to the digit
width of the total, then each meter rendering preceded by a tab. -/
theorem progress_display_format (total batch : ℕ) (pfx : String)
    (meters : List String) :
    ProgressMeter.display { num_batches := total, meters := meters, pfx := pfx }
        batch =
      pfx ++ "[" ++
        String.mk (List.replicate ((toString total).length - (toString batch).length) ' ') ++
        toString batch ++ "/" ++ toString total ++ "]" ++
      String.join (meters.map (fun s => "\t" ++ s)) := by
  show pyJoin "\t" _ = _
  rw [pyJoin]
  unfold getBatchFmtstr padIntWidth
  simp only [Nat.div_one, Nat.sub_self, List.replicate_zero, mk_nil_append,
    String.append_assoc]

/-- Claim C1: for every model, input and scalar lam, forward with both
targets present returns the logits paired with
lam * NLL(log_softmax(logits), target1) + (1 - lam) * NLL(log_softmax(logits), target2);
with lam = 1 and equal targets the loss is ordinary single-target
cross-entropy; and with either target absent forward returns the logits with
no loss. -/
theorem forward_loss_contract {I : Type} (M : Model I) (x : I) (lam : ℝ)
    (t1 t2 t : List ℕ) :
    M.forward x lam (some t1) (some t2) =
      ((M.trunk x).map M.heads.apply,
        some (lam * nll_loss (log_softmax ((M.trunk x).map M.heads.apply)) t1 +
          (1 - lam) * nll_loss (log_softmax ((M.trunk x).map M.heads.apply)) t2)) ∧
    (M.forward x 1 (some t) (some t)).2 =
      some (cross_entropy ((M.trunk x).map M.heads.apply) t) ∧
    M.forward x lam none (some t2) = ((M.trunk x).map M.heads.apply, none) ∧
    M.forward x lam (some t1) none = ((M.trunk x).map M.heads.apply, none) ∧
    M.forward x lam none none = ((M.trunk x).map M.heads.apply, none) := by
  refine ⟨rfl, ?_, rfl, rfl, rfl⟩
  simp [Model.forward, loss_fn, cross_entropy]

/-- Helper: the dot product of an all-zero weight row with any input is
zero. -/
theorem zip_mul_replicate_zero_sum (v : List ℝ) :
    ∀ n : ℕ, (List.zipWith (fun a c => a * c) (List.replicate n (0 : ℝ)) v).sum = 0 := by
  induction v with
  | nil => intro n; simp
  | cons x xs ih =>
    intro n
    cases n with
    | zero => simp
    | succ k => simp [List.replicate_succ, ih k]

/-- Helper: a zero-initialised linear layer maps every input to the all-zero
output vector. -/
theorem zeroLinear_apply (in_features out_features : ℕ) (v : List ℝ) :
    (zeroLinear in_features out_features).apply v =
      List.replicate out_features (0 : ℝ) := by
  simp [zeroLinear, Linear.apply, List.zipWith_replicate,
    zip_mul_replicate_zero_sum v in_features]

/-- Helper: the freshly initialised head stack maps every feature vector to
the all-zero logits row, in both the single-linear and the MLP-head
configuration. -/
theorem make_heads_apply_zero (hidden_dim num_classes : ℕ)
    (representation_size : Option ℕ) (pre_logits : Linear) (f : List ℝ) :
    (make_heads hidden_dim num_classes representation_size pre_logits).apply f =
      List.replicate num_classes (0 : ℝ) := by
  cases representation_size <;> simp [make_heads, Heads.apply, zeroLinear_apply]

/-- Claim C3: a freshly constructed model (any hidden dimension, class
count, optional representation size with arbitrary pre_logits weights, any
trunk) produces exactly zero logits for every input, because the final head
weight and bias are zero-initialised. -/
theorem fresh_model_zero_logits {I : Type} (trunkf : I → List (List ℝ))
    (hidden_dim num_classes : ℕ) (representation_size : Option ℕ)
    (pre_logits : Linear) (x : I) (lam : ℝ) :
    Model.forward
        { trunk := trunkf,
          heads := make_heads hidden_dim num_classes representation_size pre_logits }
        x lam none none =
      ((trunkf x).map (fun _ => List.replicate num_classes (0 : ℝ)), none) := by
  show ((trunkf x).map _, (none : Option ℝ)) = _
  rw [List.map_congr_left (fun a _ => make_heads_apply_zero hidden_dim num_classes
    representation_size pre_logits a)]

/-- Helper: the flattened y meshgrid has one entry per grid cell. -/
theorem meshgrid_y_flatten_length (h w : ℕ) :
    (meshgrid_y h w).flatten.length = h * w := by
  simp [meshgrid_y, List.length_flatten, List.map_map, Function.comp_def,
    List.map_const', List.length_replicate, List.sum_replicate, smul_eq_mul]

/-- Helper: the flattened x meshgrid has one entry per grid cell. -/
theorem meshgrid_x_flatten_length (h w : ℕ) :
    (meshgrid_x h w).flatten.length = h * w := by
  simp [meshgrid_x, List.length_flatten, List.map_map, Function.comp_def,
    List.map_const', List.length_replicate, List.sum_replicate, smul_eq_mul]

/-- Helper: zipping a list with itself is a map along the diagonal. -/
theorem zipWith_self_eq_map {α β : Type} (f : α → α → β) :
    ∀ l : List α, List.zipWith f l l = l.map (fun a => f a a) := by
  intro l
  induction l with
  | nil => rfl
  | cons a t ih => simp [ih]

/-- Helper: zipping any binary cell function over the flattened meshgrids
enumerates the grid cells in row-major order. -/
theorem zipWith_meshgrid {α : Type} (g : ℕ → ℕ → α) (w : ℕ) :
    ∀ h : ℕ, List.zipWith g (meshgrid_y h w).flatten (meshgrid_x h w).flatten =
      (List.range h).flatMap (fun y => (List.range w).map (fun x => g y x)) := by
  intro h
  induction h with
  | zero => simp [meshgrid_y, meshgrid_x]
  | succ k ih =>
    have hy : meshgrid_y (k + 1) w =
        meshgrid_y k w ++ [(List.range w).map (fun _ => k)] := by
      simp [meshgrid_y, List.range_succ]
    have hx : meshgrid_x (k + 1) w = meshgrid_x k w ++ [List.range w] := by
      simp [meshgrid_x, List.range_succ]
    have hlen : (meshgrid_y k w).flatten.length = (meshgrid_x k w).flatten.length := by
      rw [meshgrid_y_flatten_length, meshgrid_x_flatten_length]
    rw [hy, hx, List.flatten_append, List.flatten_append,
      List.zipWith_append _ _ _ _ _ hlen, ih, List.range_succ, List.flatMap_append]
    congr 1
    simp only [List.flatten_cons, List.flatten_nil, List.append_nil,
      List.flatMap_cons, List.flatMap_nil]
    rw [List.zipWith_map_left, zipWith_self_eq_map]

/-- Helper: a row built from the omega vector of the code equals the row the
spec describes. -/
theorem posemb_row_eq (dim y x : ℕ) :
    ((omega dim 10000).map fun o => Real.sin ((x : ℝ) * o)) ++
    ((omega dim 10000).map fun o => Real.cos ((x : ℝ) * o)) ++
    ((omega dim 10000).map fun o => Real.sin ((y : ℝ) * o)) ++
    ((omega dim 10000).map fun o => Real.cos ((y : ℝ) * o)) =
      posembSpecRow dim y x := by
  simp only [omega, posembSpecRow, posembSpecOmega, List.map_map]
  rfl

/-- Claim C2: the positional-embedding matrix enumerates the grid cells in
row-major order, the row of cell (y, x) being the concatenation, in order,
of sin(x omega), cos(x omega), sin(y omega), cos(y omega) with
omega_k = 1 / 10000 ^ (k / (dim/4 - 1)); it has h * w rows, each of length
dim when 4 divides dim.  (Determinism across repeated calls is immediate:
the embedding is a pure function of h, w and dim.) -/
theorem posemb_sincos_2d_spec (h w dim : ℕ) (hdim : 4 ∣ dim) :
    posemb_sincos_2d h w dim =
      (List.range h).flatMap (fun y => (List.range w).map (fun x => posembSpecRow dim y x)) ∧
    (posemb_sincos_2d h w dim).length = h * w ∧
    ∀ row ∈ posemb_sincos_2d h w dim, row.length = dim := by
  have key : posemb_sincos_2d h w dim =
      (List.range h).flatMap
        (fun y => (List.range w).map (fun x => posembSpecRow dim y x)) := by
    simp only [posemb_sincos_2d]
    rw [zipWith_meshgrid]
    simp only [posemb_row_eq]
  refine ⟨key, ?_, ?_⟩
  · rw [key]
    simp [List.length_flatMap, List.map_map, Function.comp_def, List.map_const',
      List.length_replicate, List.sum_replicate, smul_eq_mul]
  · intro row hrow
    rw [key] at hrow
    simp only [List.mem_flatMap, List.mem_map, List.mem_range] at hrow
    obtain ⟨y, -, x, -, rfl⟩ := hrow
    obtain ⟨c, rfl⟩ := hdim
    have h4 : 4 * c / 4 = c := Nat.mul_div_cancel_left c (by norm_num)
    simp [posembSpecRow, h4]
    omega

/-- Claim C2 witness: the divisibility hypothesis holds at dim = 4, where
the embedding for a 1 by 1 grid has 1 * 1 rows. -/
theorem posemb_sincos_2d_spec_witness :
    (4 : ℕ) ∣ 4 ∧ (posemb_sincos_2d 1 1 4).length = 1 * 1 :=
  ⟨⟨1, rfl⟩, (posemb_sincos_2d_spec 1 1 4 ⟨1, rfl⟩).2.1⟩

end PlainViT
